import Mathlib

/-!
Verification development for the mavftp-cli repository (src/mavftp.rs and
src/controller.rs). Machine integers are modelled as Nat with explicit
`% 2^w` truncation exactly where the Rust code performs a cast or where a
fixed-width register wraps; byte strings are `List Nat` of byte values.
Rust `panic!`, out-of-range indexing/slicing and `unwrap()` on a failing
value are modelled by an explicit `panic` outcome; `std::process::exit(n)`
is modelled by an explicit `exited n` outcome.
-/

/-- Opcode enumeration of src/mavftp.rs (MavlinkFtpOpcode), with the same
discriminant values. -/
inductive MavlinkFtpOpcode where
  | None
  | TerminateSession
  | ResetSessions
  | ListDirectory
  | OpenFileRO
  | ReadFile
  | CreateFile
  | WriteFile
  | RemoveFile
  | CreateDirectory
  | RemoveDirectory
  | OpenFileWO
  | TruncateFile
  | Rename
  | CalcFileCRC32
  | BurstReadFile
  | Ack
  | Nak
  deriving DecidableEq, Repr

/-- The numeric discriminant of each opcode (the value of `opcode as u8`). -/
def MavlinkFtpOpcode.toNat : MavlinkFtpOpcode → Nat
  | .None => 0
  | .TerminateSession => 1
  | .ResetSessions => 2
  | .ListDirectory => 3
  | .OpenFileRO => 4
  | .ReadFile => 5
  | .CreateFile => 6
  | .WriteFile => 7
  | .RemoveFile => 8
  | .CreateDirectory => 9
  | .RemoveDirectory => 10
  | .OpenFileWO => 11
  | .TruncateFile => 12
  | .Rename => 13
  | .CalcFileCRC32 => 14
  | .BurstReadFile => 15
  | .Ack => 128
  | .Nak => 129

/-- Model of `MavlinkFtpOpcode::from_u8` (derived FromPrimitive): the inverse of the
discriminant map, `none` on any other byte. -/
def MavlinkFtpOpcode.fromU8 : Nat → Option MavlinkFtpOpcode
  | 0 => some .None
  | 1 => some .TerminateSession
  | 2 => some .ResetSessions
  | 3 => some .ListDirectory
  | 4 => some .OpenFileRO
  | 5 => some .ReadFile
  | 6 => some .CreateFile
  | 7 => some .WriteFile
  | 8 => some .RemoveFile
  | 9 => some .CreateDirectory
  | 10 => some .RemoveDirectory
  | 11 => some .OpenFileWO
  | 12 => some .TruncateFile
  | 13 => some .Rename
  | 14 => some .CalcFileCRC32
  | 15 => some .BurstReadFile
  | 128 => some .Ack
  | 129 => some .Nak
  | _ => none

/-- Nak error-code enumeration of src/mavftp.rs (MavlinkFtpNak),
discriminants 0 through 10. -/
inductive MavlinkFtpNak where
  | None
  | Fail
  | FailErrno
  | InvalidDataSize
  | InvalidSession
  | NoSessionsAvailable
  | EOF
  | UnknownCommand
  | FileExists
  | FileProtected
  | FileNotFound
  deriving DecidableEq, Repr

/-- Model of `MavlinkFtpNak::from_u8` (derived FromPrimitive). -/
def MavlinkFtpNak.fromU8 : Nat → Option MavlinkFtpNak
  | 0 => some .None
  | 1 => some .Fail
  | 2 => some .FailErrno
  | 3 => some .InvalidDataSize
  | 4 => some .InvalidSession
  | 5 => some .NoSessionsAvailable
  | 6 => some .EOF
  | 7 => some .UnknownCommand
  | 8 => some .FileExists
  | 9 => some .FileProtected
  | 10 => some .FileNotFound
  | _ => none

/-- Entry kind of a parsed directory record (EntryType in src/mavftp.rs). -/
inductive EntryType where
  | File
  | Directory
  | Skip
  deriving DecidableEq, Repr

/-- A parsed directory entry (EntryInfo in src/mavftp.rs). The name is kept
as its byte sequence. -/
structure EntryInfo where
  entry_type : EntryType
  name : List Nat
  size : Nat
  deriving DecidableEq, Repr

/-- The MAVLink FTP payload record (MavlinkFtpPayload in src/mavftp.rs).
Field widths as in the Rust struct: seq_number u16, session u8, size usize,
burst_complete u8, padding u8, offset u32, data a byte vector. -/
structure MavlinkFtpPayload where
  seq_number : Nat
  session : Nat
  opcode : MavlinkFtpOpcode
  size : Nat
  req_opcode : MavlinkFtpOpcode
  burst_complete : Nat
  padding : Nat
  offset : Nat
  data : List Nat
  deriving DecidableEq, Repr

/-- Model of `MavlinkFtpPayload::new_reset_sesions`. -/
def MavlinkFtpPayload.new_reset_sesions (seq_number session : Nat) : MavlinkFtpPayload :=
  ⟨seq_number, session, .ResetSessions, 0, .None, 0, 0, 0, []⟩

/-- Model of `MavlinkFtpPayload::new_terminate_session`. -/
def MavlinkFtpPayload.new_terminate_session (seq_number session : Nat) : MavlinkFtpPayload :=
  ⟨seq_number, session, .TerminateSession, 0, .None, 0, 0, 0, []⟩

/-- Model of `MavlinkFtpPayload::new_list_directory`: size is the byte length of the
path and the bytes of the path are the data. -/
def MavlinkFtpPayload.new_list_directory (seq_number session offset : Nat) (path : List Nat) : MavlinkFtpPayload :=
  ⟨seq_number, session, .ListDirectory, path.length, .None, 0, 0, offset, path⟩

/-- Model of `MavlinkFtpPayload::new_open_file`. -/
def MavlinkFtpPayload.new_open_file (seq_number session : Nat) (path : List Nat) : MavlinkFtpPayload :=
  ⟨seq_number, session, .OpenFileRO, path.length, .None, 0, 0, 0, path⟩

/-- Model of `MavlinkFtpPayload::new_read_file`: the requested size is clamped to 239
(`size_left.clamp(0, 239)`, and `size_left : usize` is already ≥ 0) and the
data field is left empty. -/
def MavlinkFtpPayload.new_read_file (seq_number session offset size_left : Nat) : MavlinkFtpPayload :=
  ⟨seq_number, session, .BurstReadFile, min size_left 239, .None, 0, 0, offset, []⟩

/-- Model of `MavlinkFtpPayload::new_calc_file_crc32`. -/
def MavlinkFtpPayload.new_calc_file_crc32 (seq_number session : Nat) (path : List Nat) : MavlinkFtpPayload :=
  ⟨seq_number, session, .CalcFileCRC32, path.length, .None, 0, 0, 0, path⟩

/-- Model of `MavlinkFtpPayload::to_bytes`: little-endian seq_number (u16) and offset
(u32); the size field is truncated by the `as u8` cast; u8 fields are pushed
as they are; the data bytes follow the 12-byte header. -/
def MavlinkFtpPayload.to_bytes (p : MavlinkFtpPayload) : List Nat :=
  p.seq_number % 256 :: p.seq_number / 256 % 256 ::
  p.session :: p.opcode.toNat :: p.size % 256 :: p.req_opcode.toNat ::
  p.burst_complete :: p.padding ::
  p.offset % 256 :: p.offset / 256 % 256 :: p.offset / 65536 % 256 :: p.offset / 16777216 % 256 ::
  p.data

/-- Possible decode errors of `MavlinkFtpPayload::from_bytes`:
`truncatedHeader` is the `"Insufficient bytes in input array"` error returned
for inputs shorter than 12 bytes, `invalidOpcode` / `invalidReqOpcode` are
the `"Invalid opcode"` / `"Invalid req_opcode"` errors from the failed
`from_u8` conversions. -/
inductive DecodeErr where
  | truncatedHeader
  | invalidOpcode
  | invalidReqOpcode
  deriving DecidableEq, Repr

/-- Outcome of `MavlinkFtpPayload::from_bytes`. `panic` is the Rust panic
raised by the slice expression `bytes[12..12 + bytes[4] as usize]` when the
input holds fewer than `12 + size` bytes; it is not an error return. -/
inductive DecodeResult where
  | ok (p : MavlinkFtpPayload)
  | err (e : DecodeErr)
  | panic
  deriving DecidableEq, Repr

/-- Model of `MavlinkFtpPayload::from_bytes`. The fields of the struct literal are
evaluated in source order, so a failing opcode conversion (field 3) errors
before the req_opcode conversion (field 5), and both error before the data
slice `bytes[12..12 + size]` panics on a truncated body. -/
def MavlinkFtpPayload.from_bytes (bytes : List Nat) : DecodeResult :=
  match bytes with
  | b0 :: b1 :: b2 :: b3 :: b4 :: b5 :: b6 :: b7 :: b8 :: b9 :: b10 :: b11 :: rest =>
    match MavlinkFtpOpcode.fromU8 b3 with
    | none => .err .invalidOpcode
    | some opcode =>
      match MavlinkFtpOpcode.fromU8 b5 with
      | none => .err .invalidReqOpcode
      | some req_opcode =>
        if rest.length < b4 then .panic
        else .ok ⟨b0 + 256 * b1, b2, opcode, b4, req_opcode, b6, b7,
                  b8 + 256 * b9 + 65536 * b10 + 16777216 * b11, rest.take b4⟩
  | _ => .err .truncatedHeader

/-- The CRC32_TABLE constant of src/mavftp.rs. -/
def CRC32_TABLE : List Nat := [
  0x00000000, 0x77073096, 0xee0e612c, 0x990951ba, 0x076dc419, 0x706af48f, 0xe963a535, 0x9e6495a3,
  0x0edb8832, 0x79dcb8a4, 0xe0d5e91e, 0x97d2d988, 0x09b64c2b, 0x7eb17cbd, 0xe7b82d07, 0x90bf1d91,
  0x1db71064, 0x6ab020f2, 0xf3b97148, 0x84be41de, 0x1adad47d, 0x6ddde4eb, 0xf4d4b551, 0x83d385c7,
  0x136c9856, 0x646ba8c0, 0xfd62f97a, 0x8a65c9ec, 0x14015c4f, 0x63066cd9, 0xfa0f3d63, 0x8d080df5,
  0x3b6e20c8, 0x4c69105e, 0xd56041e4, 0xa2677172, 0x3c03e4d1, 0x4b04d447, 0xd20d85fd, 0xa50ab56b,
  0x35b5a8fa, 0x42b2986c, 0xdbbbc9d6, 0xacbcf940, 0x32d86ce3, 0x45df5c75, 0xdcd60dcf, 0xabd13d59,
  0x26d930ac, 0x51de003a, 0xc8d75180, 0xbfd06116, 0x21b4f4b5, 0x56b3c423, 0xcfba9599, 0xb8bda50f,
  0x2802b89e, 0x5f058808, 0xc60cd9b2, 0xb10be924, 0x2f6f7c87, 0x58684c11, 0xc1611dab, 0xb6662d3d,
  0x76dc4190, 0x01db7106, 0x98d220bc, 0xefd5102a, 0x71b18589, 0x06b6b51f, 0x9fbfe4a5, 0xe8b8d433,
  0x7807c9a2, 0x0f00f934, 0x9609a88e, 0xe10e9818, 0x7f6a0dbb, 0x086d3d2d, 0x91646c97, 0xe6635c01,
  0x6b6b51f4, 0x1c6c6162, 0x856530d8, 0xf262004e, 0x6c0695ed, 0x1b01a57b, 0x8208f4c1, 0xf50fc457,
  0x65b0d9c6, 0x12b7e950, 0x8bbeb8ea, 0xfcb9887c, 0x62dd1ddf, 0x15da2d49, 0x8cd37cf3, 0xfbd44c65,
  0x4db26158, 0x3ab551ce, 0xa3bc0074, 0xd4bb30e2, 0x4adfa541, 0x3dd895d7, 0xa4d1c46d, 0xd3d6f4fb,
  0x4369e96a, 0x346ed9fc, 0xad678846, 0xda60b8d0, 0x44042d73, 0x33031de5, 0xaa0a4c5f, 0xdd0d7cc9,
  0x5005713c, 0x270241aa, 0xbe0b1010, 0xc90c2086, 0x5768b525, 0x206f85b3, 0xb966d409, 0xce61e49f,
  0x5edef90e, 0x29d9c998, 0xb0d09822, 0xc7d7a8b4, 0x59b33d17, 0x2eb40d81, 0xb7bd5c3b, 0xc0ba6cad,
  0xedb88320, 0x9abfb3b6, 0x03b6e20c, 0x74b1d29a, 0xead54739, 0x9dd277af, 0x04db2615, 0x73dc1683,
  0xe3630b12, 0x94643b84, 0x0d6d6a3e, 0x7a6a5aa8, 0xe40ecf0b, 0x9309ff9d, 0x0a00ae27, 0x7d079eb1,
  0xf00f9344, 0x8708a3d2, 0x1e01f268, 0x6906c2fe, 0xf762575d, 0x806567cb, 0x196c3671, 0x6e6b06e7,
  0xfed41b76, 0x89d32be0, 0x10da7a5a, 0x67dd4acc, 0xf9b9df6f, 0x8ebeeff9, 0x17b7be43, 0x60b08ed5,
  0xd6d6a3e8, 0xa1d1937e, 0x38d8c2c4, 0x4fdff252, 0xd1bb67f1, 0xa6bc5767, 0x3fb506dd, 0x48b2364b,
  0xd80d2bda, 0xaf0a1b4c, 0x36034af6, 0x41047a60, 0xdf60efc3, 0xa867df55, 0x316e8eef, 0x4669be79,
  0xcb61b38c, 0xbc66831a, 0x256fd2a0, 0x5268e236, 0xcc0c7795, 0xbb0b4703, 0x220216b9, 0x5505262f,
  0xc5ba3bbe, 0xb2bd0b28, 0x2bb45a92, 0x5cb36a04, 0xc2d7ffa7, 0xb5d0cf31, 0x2cd99e8b, 0x5bdeae1d,
  0x9b64c2b0, 0xec63f226, 0x756aa39c, 0x026d930a, 0x9c0906a9, 0xeb0e363f, 0x72076785, 0x05005713,
  0x95bf4a82, 0xe2b87a14, 0x7bb12bae, 0x0cb61b38, 0x92d28e9b, 0xe5d5be0d, 0x7cdcefb7, 0x0bdbdf21,
  0x86d3d2d4, 0xf1d4e242, 0x68ddb3f8, 0x1fda836e, 0x81be16cd, 0xf6b9265b, 0x6fb077e1, 0x18b74777,
  0x88085ae6, 0xff0f6a70, 0x66063bca, 0x11010b5c, 0x8f659eff, 0xf862ae69, 0x616bffd3, 0x166ccf45,
  0xa00ae278, 0xd70dd2ee, 0x4e048354, 0x3903b3c2, 0xa7672661, 0xd06016f7, 0x4969474d, 0x3e6e77db,
  0xaed16a4a, 0xd9d65adc, 0x40df0b66, 0x37d83bf0, 0xa9bcae53, 0xdebb9ec5, 0x47b2cf7f, 0x30b5ffe9,
  0xbdbdf21c, 0xcabac28a, 0x53b39330, 0x24b4a3a6, 0xbad03605, 0xcdd70693, 0x54de5729, 0x23d967bf,
  0xb3667a2e, 0xc4614ab8, 0x5d681b02, 0x2a6f2b94, 0xb40bbe37, 0xc30c8ea1, 0x5a05df1b, 0x2d02ef8d]

/-- Model of `mavlink_crc32` of src/mavftp.rs: table-driven reflected CRC-32 with
initial register 0 and no final XOR. `(crc ^ b) & 0xff` is the table index
and the register is shifted right by 8 bits each step. -/
def mavlink_crc32 (buffer : List Nat) : Nat :=
  List.foldl (fun crc b => (CRC32_TABLE.getD ((crc ^^^ b) % 256) 0) ^^^ (crc / 256)) 0 buffer

/-- Model of the Rust slice/str split on a separator: the list of
(possibly empty) chunks between separator occurrences; an empty input yields
one empty chunk. -/
def splitByte (sep : Nat) : List Nat → List (List Nat)
  | [] => [[]]
  | b :: rest =>
    if b = sep then [] :: splitByte sep rest
    else
      match splitByte sep rest with
      | h :: t => (b :: h) :: t
      | [] => [[b]]

/-- Digit accumulator for `parseU32`. -/
def decDigitsAux : List Nat → Nat → Option Nat
  | [], acc => some acc
  | b :: rest, acc =>
    if 48 ≤ b ∧ b ≤ 57 then decDigitsAux rest (acc * 10 + (b - 48)) else none

/-- Model of the Rust u32 parse over the bytes of the record: an optional leading
plus sign, then at least one ASCII decimal digit, rejecting any other
character and any value that overflows 32 bits. -/
def parseU32 (s : List Nat) : Option Nat :=
  let digits := match s with
    | 43 :: rest => rest
    | _ => s
  if digits = [] then none
  else
    match decDigitsAux digits 0 with
    | none => none
    | some v => if v < 4294967296 then some v else none

/-- Outcome of `parse_directory_entry`: `ok` for `Ok(EntryInfo)`, `err` for
the `Err("Invalid entry type")` return, and `panic` for the
`s.parse().unwrap()` panic on a size field that is not a valid u32. -/
inductive PResult where
  | ok (e : EntryInfo)
  | err
  | panic
  deriving DecidableEq, Repr

/-- Model of `parse_directory_entry` of src/mavftp.rs, over the bytes of the record (the
Rust code goes through `String::from_utf8_lossy`; splitting on the ASCII tab,
taking the first character and parsing ASCII decimal digits all act on byte
values below 0x80, which the lossy conversion preserves, and any non-ASCII
or invalid byte can neither be a type character nor a digit in either
reading, so the byte-level function returns ok/err/panic exactly as the
source). The size field is evaluated — and its failed parse panics — before
the type character is matched, so a record with a bad type AND a bad size
panics rather than returning the invalid-entry-type error. -/
def parse_directory_entry (entry : List Nat) : PResult :=
  let parts := splitByte 9 entry
  let temp_filename := parts.headD []
  let name := temp_filename.tail
  let sizeOpt : Option Nat :=
    match parts.tail.head? with
    | none => some 0
    | some s => parseU32 s
  match sizeOpt with
  | none => .panic
  | some size =>
    match temp_filename.head? with
    | some 70 => .ok ⟨.File, name, size⟩
    | some 68 => .ok ⟨.Directory, name, size⟩
    | some 83 => .ok ⟨.Skip, name, size⟩
    | _ => .err

/-- The active operation (OperationStatus in src/controller.rs). The u8
pagination offset of ScanningFolderStatus is a Nat kept below 256 by the
wrapping increment in the Ack handler. The open file handle of ReadingFileStatus
is modelled by the name the handle was opened under (the final segment of
the remote path) together with the current byte content of that local file. -/
inductive OperationStatus where
  | ScanningFolder (path : List Nat) (offset : Nat)
  | OpeningFile (path : List Nat)
  | ReadingFile (path : List Nat) (offset : Nat) (file_size : Nat)
      (fileName : List Nat) (fileContents : List Nat)
  | Reset
  | CalcFileCRC32 (path : List Nat)
  | ClosingSession
  deriving DecidableEq, Repr

/-- The Controller state (src/controller.rs). `last_time` and the progress
bar are display-only and carry no protocol state, so they are omitted. -/
structure Controller where
  session : Nat
  entries : List EntryInfo
  status : Option OperationStatus
  waiting : Bool
  deriving DecidableEq, Repr

/-- Model of `Controller::new`. -/
def Controller.new : Controller := ⟨0, [], none, false⟩

/-- Model of `Controller::list_directory`. -/
def Controller.list_directory (c : Controller) (path : List Nat) : Controller :=
  { c with status := some (.ScanningFolder path 0) }

/-- Model of `Controller::read_file`. -/
def Controller.read_file (c : Controller) (path : List Nat) : Controller :=
  { c with status := some (.OpeningFile path) }

/-- Model of `Controller::reset`. -/
def Controller.reset (c : Controller) : Controller :=
  { c with status := some .Reset }

/-- Model of `Controller::crc`. -/
def Controller.crc (c : Controller) (path : List Nat) : Controller :=
  { c with status := some (.CalcFileCRC32 path) }

/-- Value of `usize::MAX`, the chunk size the controller requests on every burst
read. -/
def usizeMax : Nat := 18446744073709551615

/-- Model of `Controller::run`: returns `None` immediately when the awaiting flag is
set; otherwise sets the flag first and then matches on the active operation,
so a poll that produces no payload (idle or ClosingSession) still leaves the
flag set. -/
def Controller.run (c : Controller) : Controller × Option MavlinkFtpPayload :=
  if c.waiting then (c, none)
  else
    let c := { c with waiting := true }
    match c.status with
    | some .Reset =>
      (c, some (MavlinkFtpPayload.new_reset_sesions 1 c.session))
    | some (.ScanningFolder path off) =>
      (c, some (MavlinkFtpPayload.new_list_directory 1 c.session off path))
    | some (.OpeningFile path) =>
      (c, some (MavlinkFtpPayload.new_open_file 1 c.session path))
    | some (.CalcFileCRC32 path) =>
      (c, some (MavlinkFtpPayload.new_calc_file_crc32 1 c.session path))
    | some (.ReadingFile _ _ _ _ _) =>
      (c, some (MavlinkFtpPayload.new_read_file 1 c.session 0 usizeMax))
    | _ => (c, none)

/-- The FILE_TRANSFER_PROTOCOL message body: envelope addressing plus the
opaque payload bytes. -/
structure FtpMessageData where
  target_network : Nat
  target_system : Nat
  target_component : Nat
  payload : List Nat
  deriving DecidableEq, Repr

/-- Outcome of one `Controller::parse_mavlink_message` call: `normal`
returns the evolved controller and the optional outbound message
(`crcReport` records the locally recomputed CRC the completion branch
prints); `panic` is a Rust panic (unwrap failure, out-of-range index, or an
explicit `panic!`); `exited n` is `std::process::exit(n)`. -/
inductive StepResult where
  | normal (c : Controller) (out : Option FtpMessageData) (crcReport : Option Nat)
  | panic
  | exited (code : Nat)
  deriving DecidableEq, Repr

/-- The per-record loop of the ScanningFolder Ack branch: empty records are
skipped; each non-empty record first advances the u8 offset (wrapping mod
256), then is parsed — a parse panic kills the process (`none`), a parse
error is dropped, and a parsed entry is recorded with the path of the operation,
a slash (byte 47) and the entry name concatenated (`format!("{}/{}", ...)`. -/
def processEntries (path : List Nat) : Nat → List (List Nat) → Option (Nat × List EntryInfo)
  | off, [] => some (off, [])
  | off, e :: rest =>
    if e = [] then processEntries path off rest
    else
      match parse_directory_entry e with
      | .panic => none
      | .ok r =>
        match processEntries path ((off + 1) % 256) rest with
        | none => none
        | some (o, l) => some (o, { r with name := path ++ 47 :: r.name } :: l)
      | .err =>
        match processEntries path ((off + 1) % 256) rest with
        | none => none
        | some (o, l) => some (o, l)

/-- Little-endian u32 read of `data[0] ..= data[3]`. -/
def le32of (d : List Nat) : Nat :=
  d.getD 0 0 + 256 * d.getD 1 0 + 65536 * d.getD 2 0 + 16777216 * d.getD 3 0

/-- The final segment of the remote path, as computed by splitting on the
slash byte 47 and taking the last piece; split never yields an empty list,
so the trailing unwrap in the source cannot fail. -/
def lastSegment (path : List Nat) : List Nat :=
  (splitByte 47 path).getLastD []

/-- Model of seek-to-offset followed by write-all: bytes before `off` are
kept (the gap is zero-filled when seeking past the end), the chunk overwrites
`chunk.length` bytes at `off`, and any bytes after that range are kept. -/
def writeAt (file : List Nat) (off : Nat) (chunk : List Nat) : List Nat :=
  let padded := if file.length < off then file ++ List.replicate (off - file.length) 0 else file
  padded.take off ++ chunk ++ padded.drop (off + chunk.length)

/-- Model of `Controller::parse_mavlink_message` of src/controller.rs. `localFile` is
the pre-existing content of the local destination file (if any): the
OpeningFile branch opens it with `OpenOptions::new().write(true).create(true)`
— no truncate flag — so an existing file keeps its content and a missing one
is created empty. The CRC of the completion branch is computed over the written
content (the code re-reads the same local file it wrote). The decode
`.unwrap()` at entry turns every decode failure into a panic. -/
def Controller.parse_mavlink_message (c : Controller) (localFile : Option (List Nat))
    (message : FtpMessageData) : StepResult :=
  let c := { c with waiting := false }
  match MavlinkFtpPayload.from_bytes message.payload with
  | .err _ => .panic
  | .panic => .panic
  | .ok payload =>
    match payload.opcode with
    | .Ack =>
      match c.status with
      | some .Reset =>
        if payload.req_opcode = .ResetSessions then
          .normal { c with status := none } none none
        else .normal c none none
      | some (.ScanningFolder path off) =>
        let records := splitByte 0 payload.data
        if records.isEmpty then .normal c none none
        else
          match processEntries path off records with
          | none => .panic
          | some (newOff, parsed) =>
            let c := { c with status := some (.ScanningFolder path newOff),
                              entries := c.entries ++ parsed }
            if newOff ≠ 0 then
              .normal { c with waiting := true }
                (some ⟨0, 1, 1,
                  (MavlinkFtpPayload.new_list_directory 1 c.session newOff path).to_bytes⟩)
                none
            else .normal c none none
      | some (.OpeningFile path) =>
        if payload.size ≠ 4 then .panic
        else if payload.data.length < 4 then .panic
        else
          .normal { c with status := some (.ReadingFile path 0 (le32of payload.data)
                      (lastSegment path) (localFile.getD [])) } none none
      | some (.CalcFileCRC32 _) =>
        if payload.req_opcode = .CalcFileCRC32 then
          if payload.data.length < 4 then .panic else .exited 0
        else .normal c none none
      | some (.ReadingFile path _ file_size fname fcont) =>
        let fcont2 := writeAt fcont payload.offset payload.data
        let newOff := (payload.offset + payload.size) % 4294967296
        if newOff < file_size then
          let c := { c with status := some (.ReadingFile path newOff file_size fname fcont2),
                            waiting := true }
          if payload.burst_complete = 1 then
            .normal c
              (some ⟨0, 1, 1,
                (MavlinkFtpPayload.new_read_file ((payload.seq_number + 1) % 65536)
                  c.session newOff usizeMax).to_bytes⟩)
              none
          else .normal c none none
        else
          .normal { c with status := some .ClosingSession, waiting := true }
            (some ⟨0, 1, 1,
              (MavlinkFtpPayload.new_terminate_session ((payload.seq_number + 1) % 65536)
                c.session).to_bytes⟩)
            (some (mavlink_crc32 fcont2))
      | some .ClosingSession => .exited 0
      | none => .normal c none none
    | .Nak =>
      match payload.data.head? with
      | none => .panic
      | some b =>
        match MavlinkFtpNak.fromU8 b with
        | none => .panic
        | some nak =>
          match nak with
          | .EOF => .exited 0
          | _ => .normal c none none
    | _ => .normal c none none

/-- Count of the non-empty records among the null-separated chunks of a
list-directory response. -/
def countNonEmpty : List (List Nat) → Nat
  | [] => 0
  | e :: rest => (if e = [] then 0 else 1) + countNonEmpty rest

/-- Round trip of the discriminant map: converting an opcode to its byte and
back yields the same opcode. -/
theorem MavlinkFtpOpcode.fromU8_toNat (o : MavlinkFtpOpcode) :
    MavlinkFtpOpcode.fromU8 o.toNat = some o := by
  cases o <;> rfl

/-- Bytes above 10 are not valid Nak error codes. -/
theorem MavlinkFtpNak.fromU8_gt (b : Nat) (h : 10 < b) : MavlinkFtpNak.fromU8 b = none := by
  match b, h with
  | n + 11, _ => rfl

/-- General codec round trip: decoding the encoding of any payload whose
seq_number fits 16 bits, whose offset fits 32 bits, and whose declared size
fits one byte and equals the data length, returns the payload unchanged. -/
theorem roundtrip_general (p : MavlinkFtpPayload)
    (h1 : p.seq_number < 65536) (h3 : p.offset < 4294967296)
    (h5 : p.size < 256) (h6 : p.data.length = p.size) :
    MavlinkFtpPayload.from_bytes p.to_bytes = .ok p := by
  obtain ⟨seq, sess, op, size, rop, bc, pad, off, data⟩ := p
  simp only [MavlinkFtpPayload.to_bytes, MavlinkFtpPayload.from_bytes,
    MavlinkFtpOpcode.fromU8_toNat]
  simp only at h1 h3 h5 h6
  rw [Nat.mod_eq_of_lt h5]
  simp only [h6, Nat.lt_irrefl, if_false, DecodeResult.ok.injEq, MavlinkFtpPayload.mk.injEq]
  refine ⟨by omega, trivial, trivial, trivial, trivial, trivial, trivial, by omega, ?_⟩
  exact h6 ▸ List.take_length data

/-- Every successfully decoded payload carries exactly size data bytes. -/
theorem from_bytes_ok_data_length (bytes : List Nat) (p : MavlinkFtpPayload)
    (h : MavlinkFtpPayload.from_bytes bytes = .ok p) : p.data.length = p.size := by
  unfold MavlinkFtpPayload.from_bytes at h
  split at h
  · split at h
    · simp at h
    · split at h
      · simp at h
      · split at h
        · simp at h
        · simp only [DecodeResult.ok.injEq] at h
          subst h
          simp only [List.length_take]
          omega
  · simp at h

/-- C1. The claim says decode fails with the truncated-header error on fewer
than 12 bytes and with a truncated-body ERROR VALUE when the declared size
exceeds the remaining bytes. The first half holds, but on a 12-byte input
whose size field is 1 (all opcodes valid) the code does not return an error:
the slice expression panics. This theorem evaluates the code at the failing
input and at an 11-byte input. -/
theorem C1_truncation :
    MavlinkFtpPayload.from_bytes [0, 0, 0, 0, 1, 0, 0, 0, 0, 0, 0, 0] = .panic ∧
    MavlinkFtpPayload.from_bytes [0, 0, 0, 0, 0, 0, 0, 0, 0, 0, 0] = .err .truncatedHeader := by
  decide

/-- C2 counterexample. A burst-read request constructed with requested size 1
declares size 1 but carries no data, so decoding its own encoding panics
instead of succeeding: the round trip fails for this constructor output. -/
theorem C2_counterexample :
    MavlinkFtpPayload.from_bytes (MavlinkFtpPayload.new_read_file 1 0 0 1).to_bytes = .panic := by
  decide

/-- C2 (amended). For every payload produced by the six request constructors,
decode of encode reproduces every field exactly — provided the path argument
holds at most 255 bytes (for the path-taking constructors) and the requested
burst-read chunk size is 0 (a nonzero request declares a size with no data
and its encoding does not decode). -/
theorem C2_roundtrip (seq sess off : Nat) (path : List Nat)
    (h1 : seq < 65536) (h3 : off < 4294967296) (h4 : path.length ≤ 255) :
    MavlinkFtpPayload.from_bytes (MavlinkFtpPayload.new_reset_sesions seq sess).to_bytes
      = .ok (MavlinkFtpPayload.new_reset_sesions seq sess) ∧
    MavlinkFtpPayload.from_bytes (MavlinkFtpPayload.new_terminate_session seq sess).to_bytes
      = .ok (MavlinkFtpPayload.new_terminate_session seq sess) ∧
    MavlinkFtpPayload.from_bytes (MavlinkFtpPayload.new_list_directory seq sess off path).to_bytes
      = .ok (MavlinkFtpPayload.new_list_directory seq sess off path) ∧
    MavlinkFtpPayload.from_bytes (MavlinkFtpPayload.new_open_file seq sess path).to_bytes
      = .ok (MavlinkFtpPayload.new_open_file seq sess path) ∧
    MavlinkFtpPayload.from_bytes (MavlinkFtpPayload.new_read_file seq sess off 0).to_bytes
      = .ok (MavlinkFtpPayload.new_read_file seq sess off 0) ∧
    MavlinkFtpPayload.from_bytes (MavlinkFtpPayload.new_calc_file_crc32 seq sess path).to_bytes
      = .ok (MavlinkFtpPayload.new_calc_file_crc32 seq sess path) := by
  refine ⟨?_, ?_, ?_, ?_, ?_, ?_⟩ <;>
    apply roundtrip_general <;>
      simp [MavlinkFtpPayload.new_reset_sesions, MavlinkFtpPayload.new_terminate_session,
        MavlinkFtpPayload.new_list_directory, MavlinkFtpPayload.new_open_file,
        MavlinkFtpPayload.new_read_file, MavlinkFtpPayload.new_calc_file_crc32] <;>
      omega

/-- C2 witness: the round trip evaluated at seq 1, session 0, offset 5 and
the two-byte path [47, 97]. -/
theorem C2_roundtrip_witness :
    MavlinkFtpPayload.from_bytes (MavlinkFtpPayload.new_reset_sesions 1 0).to_bytes
      = .ok (MavlinkFtpPayload.new_reset_sesions 1 0) ∧
    MavlinkFtpPayload.from_bytes (MavlinkFtpPayload.new_terminate_session 1 0).to_bytes
      = .ok (MavlinkFtpPayload.new_terminate_session 1 0) ∧
    MavlinkFtpPayload.from_bytes (MavlinkFtpPayload.new_list_directory 1 0 5 [47, 97]).to_bytes
      = .ok (MavlinkFtpPayload.new_list_directory 1 0 5 [47, 97]) ∧
    MavlinkFtpPayload.from_bytes (MavlinkFtpPayload.new_open_file 1 0 [47, 97]).to_bytes
      = .ok (MavlinkFtpPayload.new_open_file 1 0 [47, 97]) ∧
    MavlinkFtpPayload.from_bytes (MavlinkFtpPayload.new_read_file 1 0 5 0).to_bytes
      = .ok (MavlinkFtpPayload.new_read_file 1 0 5 0) ∧
    MavlinkFtpPayload.from_bytes (MavlinkFtpPayload.new_calc_file_crc32 1 0 [47, 97]).to_bytes
      = .ok (MavlinkFtpPayload.new_calc_file_crc32 1 0 [47, 97]) :=
  C2_roundtrip 1 0 5 [47, 97] (by decide) (by decide) (by decide)

/-- C3 counterexample. The CRC helper does NOT yield the standard reflected
CRC-32 reference value 0xCBF43926 on the ASCII bytes of the string
123456789, because the register starts at 0 and there is no final XOR. -/
theorem C3_counterexample :
    mavlink_crc32 [49, 50, 51, 52, 53, 54, 55, 56, 57] ≠ 0xCBF43926 := by
  decide

/-- C3 (amended). With initial register 0 and no final XOR, the helper
yields 0x2DFD2D88 on the ASCII bytes of 123456789, and 0 on empty input. -/
theorem C3_crc_values :
    mavlink_crc32 [49, 50, 51, 52, 53, 54, 55, 56, 57] = 0x2DFD2D88 ∧
    mavlink_crc32 [] = 0 := by
  decide

/-- Splitting a byte list on a separator never yields an empty list of
chunks. -/
theorem splitByte_ne_nil (sep : Nat) (l : List Nat) : splitByte sep l ≠ [] := by
  cases l with
  | nil => simp [splitByte]
  | cons b rest =>
    simp only [splitByte]
    split
    · simp
    · split <;> simp

/-- Boolean form of `splitByte_ne_nil`: the dead early-return guard of the
ScanningFolder branch never fires. -/
theorem splitByte_isEmpty_false (sep : Nat) (l : List Nat) :
    (splitByte sep l).isEmpty = false := by
  rcases hs : splitByte sep l with _ | ⟨h1, t1⟩
  · exact absurd hs (splitByte_ne_nil sep l)
  · rfl

/-- The record loop advances the pagination offset by exactly the number of
non-empty records, wrapping modulo 256 (the field is a u8), whenever it
completes without a parse panic. -/
theorem processEntries_offset (path : List Nat) (l : List (List Nat)) :
    ∀ (off : Nat), off < 256 → ∀ o parsed,
      processEntries path off l = some (o, parsed) →
      o = (off + countNonEmpty l) % 256 := by
  induction l with
  | nil =>
    intro off hoff o parsed h
    simp only [processEntries, Option.some.injEq, Prod.mk.injEq] at h
    simp [countNonEmpty, ← h.1, Nat.mod_eq_of_lt hoff]
  | cons e rest ih =>
    intro off hoff o parsed h
    by_cases he : e = []
    · simp only [processEntries, he, if_true] at h
      have := ih off hoff o parsed h
      simpa [countNonEmpty, he] using this
    · simp only [processEntries, he, if_false] at h
      have hm : (off + 1) % 256 < 256 := Nat.mod_lt _ (by omega)
      have hcnt : countNonEmpty (e :: rest) = 1 + countNonEmpty rest := by
        simp [countNonEmpty, he]
      cases hp : parse_directory_entry e
      · simp only [hp] at h
        rcases hrec : processEntries path ((off + 1) % 256) rest with _ | ⟨o2, l2⟩
        · simp [hrec] at h
        · simp only [hrec, Option.some.injEq, Prod.mk.injEq] at h
          obtain ⟨ho, -⟩ := h
          have := ih ((off + 1) % 256) hm o2 l2 hrec
          rw [hcnt]
          omega
      · simp only [hp] at h
        rcases hrec : processEntries path ((off + 1) % 256) rest with _ | ⟨o2, l2⟩
        · simp [hrec] at h
        · simp only [hrec, Option.some.injEq, Prod.mk.injEq] at h
          obtain ⟨ho, -⟩ := h
          have := ih ((off + 1) % 256) hm o2 l2 hrec
          rw [hcnt]
          omega
      · simp only [hp] at h
        simp at h

/-- C4 counterexample. With the listing at cumulative offset 1, an Ack whose
data is empty processes zero records this round, yet a follow-up
list-directory request is still emitted (the code tests the cumulative
offset, not the per-round count), contradicting the claimed if-and-only-if. -/
theorem C4_counterexample :
    countNonEmpty (splitByte 0 ([] : List Nat)) = 0 ∧
    Controller.parse_mavlink_message ⟨0, [], some (.ScanningFolder [47, 114] 1), true⟩ none
        ⟨0, 1, 1, [1, 0, 0, 128, 0, 3, 0, 0, 0, 0, 0, 0]⟩ =
      .normal ⟨0, [], some (.ScanningFolder [47, 114] 1), true⟩
        (some ⟨0, 1, 1, (MavlinkFtpPayload.new_list_directory 1 0 1 [47, 114]).to_bytes⟩)
        none := by
  decide

/-- C4 (amended). On every Ack processed while a listing is active and whose
record loop completes without panicking, the pagination offset advances by
exactly the count of all non-empty null-separated records modulo 256 (the
counter is a u8); a follow-up list-directory request at the new offset is
emitted if and only if the new CUMULATIVE offset is nonzero; an Ack never
concludes the operation (never exits), and an EOF Nak does conclude it. -/
theorem C4_listing (c : Controller) (fs : Option (List Nat)) (msg : FtpMessageData)
    (p : MavlinkFtpPayload) (path : List Nat) (off : Nat)
    (hdec : MavlinkFtpPayload.from_bytes msg.payload = .ok p)
    (hst : c.status = some (.ScanningFolder path off))
    (hoff : off < 256) :
    (p.opcode = .Ack →
      ∀ newOff parsed, processEntries path off (splitByte 0 p.data) = some (newOff, parsed) →
        newOff = (off + countNonEmpty (splitByte 0 p.data)) % 256 ∧
        c.parse_mavlink_message fs msg =
          (if newOff ≠ 0 then
            .normal { c with waiting := true,
                             entries := c.entries ++ parsed,
                             status := some (.ScanningFolder path newOff) }
              (some ⟨0, 1, 1,
                (MavlinkFtpPayload.new_list_directory 1 c.session newOff path).to_bytes⟩)
              none
          else
            .normal { c with waiting := false,
                             entries := c.entries ++ parsed,
                             status := some (.ScanningFolder path newOff) }
              none none)) ∧
    (p.opcode = .Ack → ∀ k, c.parse_mavlink_message fs msg ≠ .exited k) ∧
    (p.opcode = .Nak → p.data.head? = some 6 →
      c.parse_mavlink_message fs msg = .exited 0) := by
  refine ⟨?_, ?_, ?_⟩
  · intro hop newOff parsed hproc
    refine ⟨processEntries_offset path (splitByte 0 p.data) off hoff newOff parsed hproc, ?_⟩
    simp only [Controller.parse_mavlink_message, hdec, hop, hst,
      splitByte_isEmpty_false, Bool.false_eq_true, if_false, hproc]
  · intro hop k
    simp only [Controller.parse_mavlink_message, hdec, hop, hst,
      splitByte_isEmpty_false, Bool.false_eq_true, if_false]
    rcases hproc : processEntries path off (splitByte 0 p.data) with _ | ⟨o2, l2⟩ <;>
      simp only [hproc]
    · simp
    · split <;> simp
  · intro hop hEOF
    simp only [Controller.parse_mavlink_message, hdec, hop, hEOF,
      show MavlinkFtpNak.fromU8 6 = some .EOF from rfl]

/-- C4 witness: the listing scenario of the specification — path [47, 114],
offset 0, an Ack carrying the records Fa.txt TAB 10 and Dsub — advances the
offset to 2, accumulates the two path-prefixed entries, and emits the
follow-up request at offset 2. -/
theorem C4_listing_witness :
    ((1 : Nat) + 1) % 256 = 2 ∧
    Controller.parse_mavlink_message ⟨0, [], some (.ScanningFolder [47, 114] 0), true⟩ none
        ⟨0, 1, 1,
          [1, 0, 0, 128, 15, 3, 0, 0, 0, 0, 0, 0,
           70, 97, 46, 116, 120, 116, 9, 49, 48, 0, 68, 115, 117, 98, 0]⟩ =
      .normal { (⟨0, [], some (.ScanningFolder [47, 114] 0), true⟩ : Controller) with
                  waiting := true,
                  entries := [] ++ [⟨.File, [47, 114] ++ 47 :: [97, 46, 116, 120, 116], 10⟩,
                    ⟨.Directory, [47, 114] ++ 47 :: [115, 117, 98], 0⟩],
                  status := some (.ScanningFolder [47, 114] 2) }
        (some ⟨0, 1, 1, (MavlinkFtpPayload.new_list_directory 1 0 2 [47, 114]).to_bytes⟩)
        none := by
  have h := (C4_listing ⟨0, [], some (.ScanningFolder [47, 114] 0), true⟩ none
    ⟨0, 1, 1,
      [1, 0, 0, 128, 15, 3, 0, 0, 0, 0, 0, 0,
       70, 97, 46, 116, 120, 116, 9, 49, 48, 0, 68, 115, 117, 98, 0]⟩
    ⟨1, 0, .Ack, 15, .ListDirectory, 0, 0, 0,
      [70, 97, 46, 116, 120, 116, 9, 49, 48, 0, 68, 115, 117, 98, 0]⟩
    [47, 114] 0 (by decide) rfl (by decide)).1 rfl 2
    [⟨.File, [47, 114] ++ 47 :: [97, 46, 116, 120, 116], 10⟩,
     ⟨.Directory, [47, 114] ++ 47 :: [115, 117, 98], 0⟩] (by decide)
  exact ⟨by decide, h.2.trans (by decide)⟩

/-- C5 counterexample. The non-empty record F a TAB x (bytes
[70, 97, 9, 120]) fails to parse as a directory entry, but it is NOT
silently dropped: the unchecked u32 parse of its size field panics, aborting
the whole operation. -/
theorem C5_counterexample :
    parse_directory_entry [70, 97, 9, 120] = .panic ∧
    Controller.parse_mavlink_message ⟨0, [], some (.ScanningFolder [47, 114] 0), true⟩ none
        ⟨0, 1, 1, [1, 0, 0, 128, 5, 3, 0, 0, 0, 0, 0, 0, 70, 97, 9, 120, 0]⟩ = .panic := by
  decide

/-- C5 (amended). A non-empty record rejected for an invalid leading type
character is silently dropped: processing continues with the remaining
records and only the offset advances; a successfully parsed record is
appended with the target path, a slash and its name concatenated; but a
record whose tab-separated size field is not a valid u32 panics, aborting
the operation. -/
theorem C5_drop (path : List Nat) (off : Nat) (e : List Nat) (rest : List (List Nat))
    (hne : e ≠ []) :
    (parse_directory_entry e = .err →
      processEntries path off (e :: rest) = processEntries path ((off + 1) % 256) rest) ∧
    (∀ r, parse_directory_entry e = .ok r →
      processEntries path off (e :: rest) =
        (processEntries path ((off + 1) % 256) rest).map
          (fun x => (x.1, { r with name := path ++ 47 :: r.name } :: x.2))) ∧
    (parse_directory_entry e = .panic → processEntries path off (e :: rest) = none) := by
  refine ⟨?_, ?_, ?_⟩
  · intro hp
    simp only [processEntries, hne, if_false, hp]
    rcases hrec : processEntries path ((off + 1) % 256) rest with _ | ⟨o2, l2⟩ <;>
      simp [hrec]
  · intro r hp
    simp only [processEntries, hne, if_false, hp]
    rcases hrec : processEntries path ((off + 1) % 256) rest with _ | ⟨o2, l2⟩ <;>
      simp [hrec]
  · intro hp
    simp only [processEntries, hne, if_false, hp]

/-- C5 witness: the record X b a d (invalid type character) followed by the
record F a, instantiated concretely. -/
theorem C5_drop_witness :
    (parse_directory_entry [88, 98, 97, 100] = .err →
      processEntries [47] 0 ([88, 98, 97, 100] :: [[70, 97]]) =
        processEntries [47] ((0 + 1) % 256) [[70, 97]]) ∧
    (∀ r, parse_directory_entry [88, 98, 97, 100] = .ok r →
      processEntries [47] 0 ([88, 98, 97, 100] :: [[70, 97]]) =
        (processEntries [47] ((0 + 1) % 256) [[70, 97]]).map
          (fun x => (x.1, { r with name := [47] ++ 47 :: r.name } :: x.2))) ∧
    (parse_directory_entry [88, 98, 97, 100] = .panic →
      processEntries [47] 0 ([88, 98, 97, 100] :: [[70, 97]]) = none) :=
  C5_drop [47] 0 [88, 98, 97, 100] [[70, 97]] (by decide)

/-- The poll returns nothing and changes nothing while the awaiting flag is
set. -/
theorem run_when_waiting (c : Controller) (h : c.waiting = true) : c.run = (c, none) := by
  simp [Controller.run, h]

/-- Every poll that finds the awaiting flag clear sets it, whether or not a
payload is produced. -/
theorem run_sets_flag (c : Controller) (h : c.waiting = false) : (c.run.1).waiting = true := by
  simp only [Controller.run, h, Bool.false_eq_true, if_false]
  rcases c.status with _ | st
  · rfl
  · cases st <;> rfl

/-- C6 counterexample. A fresh controller (no active operation) polled once
yields no payload, yet the awaiting flag IS left set — contradicting the
claim that the flag is set exactly when a payload is produced. -/
theorem C6_counterexample :
    Controller.new.run.2 = none ∧ (Controller.new.run.1).waiting = true := by
  decide

/-- C6 (amended). The awaiting flag gates polling: a poll with the flag set
returns nothing; every poll that finds the flag clear sets it, whether or
not a payload is produced (also when idle or closing); hence two consecutive
polls never both produce, and with an active payload-producing operation
the first poll produces and the second does not; processing any inbound
payload that decodes to an ignored opcode clears the flag and changes
nothing else. -/
theorem C6_flag (c : Controller) :
    (c.waiting = true → c.run = (c, none)) ∧
    (c.waiting = false → (c.run.1).waiting = true) ∧
    (c.waiting = false → c.run.1.run = (c.run.1, none)) ∧
    (c.waiting = false → c.status ≠ none → c.status ≠ some .ClosingSession →
      (c.run.2).isSome = true) ∧
    (∀ fs msg p, MavlinkFtpPayload.from_bytes msg.payload = .ok p →
      p.opcode ≠ .Ack → p.opcode ≠ .Nak →
      c.parse_mavlink_message fs msg = .normal { c with waiting := false } none none) := by
  refine ⟨run_when_waiting c, run_sets_flag c, ?_, ?_, ?_⟩
  · intro h
    exact run_when_waiting _ (run_sets_flag c h)
  · intro h hn hcs
    simp only [Controller.run, h, Bool.false_eq_true, if_false]
    rcases hs : c.status with _ | st
    · exact absurd hs hn
    · cases st <;> simp_all
  · intro fs msg p hdec hA hN
    cases hop : p.opcode <;>
      first
        | exact absurd hop hA
        | exact absurd hop hN
        | simp only [Controller.parse_mavlink_message, hdec, hop]

/-- C6 witness: the flag behaviour evaluated on a controller with an active
reset operation, and on an inbound ReadFile-opcode payload. -/
theorem C6_flag_witness :
    ((⟨0, [], some .Reset, true⟩ : Controller).run = (⟨0, [], some .Reset, true⟩, none)) ∧
    ((⟨0, [], some .Reset, false⟩ : Controller).run.1.waiting = true) ∧
    ((⟨0, [], some .Reset, false⟩ : Controller).run.1.run
      = ((⟨0, [], some .Reset, false⟩ : Controller).run.1, none)) ∧
    ((⟨0, [], some .Reset, false⟩ : Controller).run.2.isSome = true) ∧
    (Controller.parse_mavlink_message ⟨0, [], some .Reset, false⟩ none
        ⟨0, 1, 1, [0, 0, 0, 5, 0, 0, 0, 0, 0, 0, 0, 0]⟩
      = .normal ⟨0, [], some .Reset, false⟩ none none) :=
  ⟨(C6_flag _).1 rfl,
   (C6_flag _).2.1 rfl,
   (C6_flag _).2.2.1 rfl,
   (C6_flag _).2.2.2.1 rfl (by decide) (by decide),
   (C6_flag _).2.2.2.2 none ⟨0, 1, 1, [0, 0, 0, 5, 0, 0, 0, 0, 0, 0, 0, 0]⟩
     ⟨0, 0, .ReadFile, 0, .None, 0, 0, 0, []⟩ (by decide) (by decide) (by decide)⟩

/-- C7 counterexample. With a pre-existing local file holding [9, 9, 9], the
open performed on the file-size Ack does NOT truncate: the reading state
starts with the stale content [9, 9, 9], not with an empty file as the
claimed open-and-truncate behaviour would give. -/
theorem C7_counterexample :
    Controller.parse_mavlink_message ⟨0, [], some (.OpeningFile [47, 102]), true⟩ (some [9, 9, 9])
        ⟨0, 1, 1, [1, 0, 0, 128, 4, 4, 0, 0, 0, 0, 0, 0, 5, 0, 0, 0]⟩ =
      .normal ⟨0, [], some (.ReadingFile [47, 102] 0 5 [102] [9, 9, 9]), false⟩ none none ∧
    Controller.parse_mavlink_message ⟨0, [], some (.OpeningFile [47, 102]), true⟩ (some [9, 9, 9])
        ⟨0, 1, 1, [1, 0, 0, 128, 4, 4, 0, 0, 0, 0, 0, 0, 5, 0, 0, 0]⟩ ≠
      .normal ⟨0, [], some (.ReadingFile [47, 102] 0 5 [102] []), false⟩ none none := by
  decide

/-- C7 (amended). On an Ack while an open-file operation is active, the
controller panics unless the declared size is exactly 4; on a 4-byte
response it reads a little-endian 32-bit file size, opens — creating if
absent but WITHOUT truncating, so existing local content is preserved — the
local file named by the final path segment, transitions to the reading state
with offset 0 and the learned size, and emits no immediate follow-up. -/
theorem C7_opening (c : Controller) (fs : Option (List Nat)) (msg : FtpMessageData)
    (p : MavlinkFtpPayload) (path : List Nat)
    (hdec : MavlinkFtpPayload.from_bytes msg.payload = .ok p)
    (hop : p.opcode = .Ack)
    (hst : c.status = some (.OpeningFile path)) :
    (p.size ≠ 4 → c.parse_mavlink_message fs msg = .panic) ∧
    (p.size = 4 →
      c.parse_mavlink_message fs msg =
        .normal { c with waiting := false,
                         status := some (.ReadingFile path 0 (le32of p.data) (lastSegment path)
                           (fs.getD [])) } none none) := by
  simp only [Controller.parse_mavlink_message, hdec, hop, hst]
  constructor
  · intro hne
    simp [hne]
  · intro h4
    have hlen : p.data.length = 4 := by rw [from_bytes_ok_data_length _ _ hdec, h4]
    simp [h4, hlen]

/-- C7 witness: a wrong-size Ack (size 3) panics, and a size-4 Ack reporting
file size 5 moves to the reading state on the preserved local content. -/
theorem C7_opening_witness :
    (Controller.parse_mavlink_message ⟨0, [], some (.OpeningFile [47, 102]), true⟩ (some [9, 9, 9])
        ⟨0, 1, 1, [1, 0, 0, 128, 3, 4, 0, 0, 0, 0, 0, 0, 5, 0, 0]⟩ = .panic) ∧
    (Controller.parse_mavlink_message ⟨0, [], some (.OpeningFile [47, 102]), true⟩ (some [9, 9, 9])
        ⟨0, 1, 1, [1, 0, 0, 128, 4, 4, 0, 0, 0, 0, 0, 0, 5, 0, 0, 0]⟩ =
      .normal { (⟨0, [], some (.OpeningFile [47, 102]), true⟩ : Controller) with
                  waiting := false,
                  status := some (.ReadingFile [47, 102] 0
                    (le32of (⟨1, 0, .Ack, 4, .OpenFileRO, 0, 0, 0, [5, 0, 0, 0]⟩ : MavlinkFtpPayload).data)
                    (lastSegment [47, 102]) ((some [9, 9, 9]).getD [])) } none none) :=
  ⟨(C7_opening ⟨0, [], some (.OpeningFile [47, 102]), true⟩ (some [9, 9, 9])
      ⟨0, 1, 1, [1, 0, 0, 128, 3, 4, 0, 0, 0, 0, 0, 0, 5, 0, 0]⟩
      ⟨1, 0, .Ack, 3, .OpenFileRO, 0, 0, 0, [5, 0, 0]⟩ [47, 102]
      (by decide) rfl rfl).1 (by decide),
   (C7_opening ⟨0, [], some (.OpeningFile [47, 102]), true⟩ (some [9, 9, 9])
      ⟨0, 1, 1, [1, 0, 0, 128, 4, 4, 0, 0, 0, 0, 0, 0, 5, 0, 0, 0]⟩
      ⟨1, 0, .Ack, 4, .OpenFileRO, 0, 0, 0, [5, 0, 0, 0]⟩ [47, 102]
      (by decide) rfl rfl).2 rfl⟩

/-- C8. While a file read is active, each Ack writes its data at the file
position given by the echoed offset field of the response itself; the
running offset becomes that offset plus the declared size (32-bit sum); when
the running offset reaches or passes the expected total size the controller
recomputes the local checksum over the written file content, transitions to
the closing-session state and emits a terminate-session request whose
sequence number is the incremented (16-bit) response sequence number; a
subsequent Ack in the closing state concludes the operation (exit 0). Below
the total, a burst-complete response triggers a follow-up burst read and a
mid-burst response triggers nothing. -/
theorem C8_reading (c : Controller) (fs : Option (List Nat)) (msg : FtpMessageData)
    (p : MavlinkFtpPayload)
    (hdec : MavlinkFtpPayload.from_bytes msg.payload = .ok p)
    (hop : p.opcode = .Ack) :
    (∀ path off fsz fname fcont,
      c.status = some (.ReadingFile path off fsz fname fcont) →
      (((p.offset + p.size) % 4294967296 < fsz →
        c.parse_mavlink_message fs msg =
          (if p.burst_complete = 1 then
            .normal { c with waiting := true,
                             status := some (.ReadingFile path ((p.offset + p.size) % 4294967296)
                               fsz fname (writeAt fcont p.offset p.data)) }
              (some ⟨0, 1, 1, (MavlinkFtpPayload.new_read_file ((p.seq_number + 1) % 65536)
                c.session ((p.offset + p.size) % 4294967296) usizeMax).to_bytes⟩)
              none
          else
            .normal { c with waiting := true,
                             status := some (.ReadingFile path ((p.offset + p.size) % 4294967296)
                               fsz fname (writeAt fcont p.offset p.data)) }
              none none)) ∧
       (fsz ≤ (p.offset + p.size) % 4294967296 →
        c.parse_mavlink_message fs msg =
          .normal { c with waiting := true, status := some .ClosingSession }
            (some ⟨0, 1, 1, (MavlinkFtpPayload.new_terminate_session ((p.seq_number + 1) % 65536)
              c.session).to_bytes⟩)
            (some (mavlink_crc32 (writeAt fcont p.offset p.data)))))) ∧
    (c.status = some .ClosingSession → c.parse_mavlink_message fs msg = .exited 0) := by
  constructor
  · intro path off fsz fname fcont hst
    simp only [Controller.parse_mavlink_message, hdec, hop, hst]
    constructor
    · intro hlt
      rw [if_pos hlt]
    · intro hge
      rw [if_neg (by omega)]
  · intro hst
    simp only [Controller.parse_mavlink_message, hdec, hop, hst]

/-- C8 witness: a read of total size 4 completed by one burst chunk of 4
bytes at offset 0 emits the terminate-session request with sequence number 3
and reports the locally recomputed checksum, and the closing-state Ack then
concludes with exit 0. -/
theorem C8_reading_witness :
    (Controller.parse_mavlink_message ⟨0, [], some (.ReadingFile [47, 102] 0 4 [102] []), true⟩ none
        ⟨0, 1, 1, [2, 0, 0, 128, 4, 15, 1, 0, 0, 0, 0, 0, 10, 20, 30, 40]⟩ =
      .normal ⟨0, [], some .ClosingSession, true⟩
        (some ⟨0, 1, 1, (MavlinkFtpPayload.new_terminate_session 3 0).to_bytes⟩)
        (some (mavlink_crc32 (writeAt [] 0 [10, 20, 30, 40])))) ∧
    (Controller.parse_mavlink_message ⟨0, [], some .ClosingSession, true⟩ none
        ⟨0, 1, 1, [3, 0, 0, 128, 0, 1, 0, 0, 0, 0, 0, 0]⟩ = .exited 0) :=
  ⟨((C8_reading ⟨0, [], some (.ReadingFile [47, 102] 0 4 [102] []), true⟩ none
      ⟨0, 1, 1, [2, 0, 0, 128, 4, 15, 1, 0, 0, 0, 0, 0, 10, 20, 30, 40]⟩
      ⟨2, 0, .Ack, 4, .BurstReadFile, 1, 0, 0, [10, 20, 30, 40]⟩
      (by decide) rfl).1 [47, 102] 0 4 [102] [] rfl).2 (by decide),
   (C8_reading ⟨0, [], some .ClosingSession, true⟩ none
      ⟨0, 1, 1, [3, 0, 0, 128, 0, 1, 0, 0, 0, 0, 0, 0]⟩
      ⟨3, 0, .Ack, 0, .TerminateSession, 0, 0, 0, []⟩
      (by decide) rfl).2 rfl⟩

/-- C9 counterexample. A 3-byte inbound payload fails to decode, and the
response handler panics (the unwrap aborts the process) — no decode error
value is propagated to the caller. -/
theorem C9_counterexample :
    Controller.parse_mavlink_message Controller.new none ⟨0, 1, 1, [1, 2, 3]⟩ = .panic := by
  decide

/-- C9 (amended). For every inbound byte sequence whose decode fails —
whether with a returned decode error or with the decoder panic on a
truncated body — the response handler panics (unwrap on the decode result),
aborting the process instead of returning the error to the caller. -/
theorem C9_decode_failure (c : Controller) (fs : Option (List Nat)) (msg : FtpMessageData)
    (e : DecodeErr)
    (h : MavlinkFtpPayload.from_bytes msg.payload = .err e ∨
         MavlinkFtpPayload.from_bytes msg.payload = .panic) :
    c.parse_mavlink_message fs msg = .panic := by
  rcases h with h | h <;> simp only [Controller.parse_mavlink_message, h]

/-- C9 witness: a 12-byte payload whose opcode byte 200 is undefined decodes
to the invalid-opcode error, and the handler panics on it. -/
theorem C9_decode_failure_witness :
    Controller.parse_mavlink_message Controller.new none
        ⟨0, 1, 1, [0, 0, 0, 200, 0, 0, 0, 0, 0, 0, 0, 0]⟩ = .panic :=
  C9_decode_failure Controller.new none ⟨0, 1, 1, [0, 0, 0, 200, 0, 0, 0, 0, 0, 0, 0, 0]⟩
    .invalidOpcode (Or.inl (by decide))

/-- C10. On every successfully decoded Nak payload the handler reads the
error code from the first data byte and converts it with an unchecked
unwrap: if the data field is empty, or its first byte is above 10 (not a
defined error code), the handler panics instead of returning a failure
outcome — in every controller state. -/
theorem C10_nak_panics (c : Controller) (fs : Option (List Nat)) (msg : FtpMessageData)
    (p : MavlinkFtpPayload)
    (hdec : MavlinkFtpPayload.from_bytes msg.payload = .ok p)
    (hop : p.opcode = .Nak)
    (h : p.data = [] ∨ ∃ b, p.data.head? = some b ∧ 10 < b) :
    c.parse_mavlink_message fs msg = .panic := by
  simp only [Controller.parse_mavlink_message, hdec, hop]
  rcases h with h | ⟨b, hb, hgt⟩
  · simp [h]
  · simp [hb, MavlinkFtpNak.fromU8_gt b hgt]

/-- C10 witness: an empty-data Nak and a Nak whose first data byte is 11
both panic. -/
theorem C10_nak_panics_witness :
    Controller.parse_mavlink_message Controller.new none
        ⟨0, 1, 1, [0, 0, 0, 129, 0, 0, 0, 0, 0, 0, 0, 0]⟩ = .panic ∧
    Controller.parse_mavlink_message Controller.new none
        ⟨0, 1, 1, [0, 0, 0, 129, 1, 0, 0, 0, 0, 0, 0, 0, 11]⟩ = .panic :=
  ⟨C10_nak_panics Controller.new none ⟨0, 1, 1, [0, 0, 0, 129, 0, 0, 0, 0, 0, 0, 0, 0]⟩
      ⟨0, 0, .Nak, 0, .None, 0, 0, 0, []⟩ (by decide) rfl (Or.inl rfl),
   C10_nak_panics Controller.new none ⟨0, 1, 1, [0, 0, 0, 129, 1, 0, 0, 0, 0, 0, 0, 0, 11]⟩
      ⟨0, 0, .Nak, 1, .None, 0, 0, 0, [11]⟩ (by decide) rfl
      (Or.inr ⟨11, rfl, by decide⟩)⟩
